import Mathlib

/-!
# Verification of the llmcli Interactive Chat Session Engine

Shallow embedding, in Lean 4, of the core of the `llmcli` Rust repository:
the conversation data model (`src/lib.rs`), the Dummy and Gemini chat
providers (`src/chatbots/dummy.rs`, `src/chatbots/gemini.rs`), the session
persistence layer (`src/session.rs`), and the REPL orchestration
(`src/main.rs`: `run_chat`, `handle_command`, `handle_chat_message`).

Conventions of the embedding:
* Rust `Result<T, E>` becomes `Except E T`; a Rust panic becomes `none` in
  an outer `Option`.
* Mutation through `&mut self` becomes explicit state passing: a Rust
  method `fn f(&mut self, ..) -> Result<(), E>` becomes a Lean function
  returning `Except E Unit × State`, the second component being the state
  after the call (unchanged when the method fails without mutating).
* External collaborators keep their observable contract but lose their IO:
  the filesystem used by `Session::{save, load, delete, list_all}` is an
  association list from file names to file contents; `serde_json` is
  modelled at the level of a JSON syntax tree; the network byte stream
  consumed by the Gemini stream decoder is a finite list of
  chunk-or-transport-error items, and the JSON payload parser applied to
  each chunk is an explicit function argument.
* Terminal printing never fails in the model; printed messages are
  returned as a list of strings so that reporting behaviour is statable.
-/

deriving instance DecidableEq for Except

/-! ## Core data model (src/lib.rs) -/

/-- Role of a message, `enum Role` in src/lib.rs: System, User, Assistant.
Serialized lowercase; deserialization accepts the alias "model" for
Assistant. -/
inductive Role where
  | System : Role
  | User : Role
  | Assistant : Role
deriving DecidableEq, Repr

/-- A chat message, `struct Message { role, content }` in src/lib.rs. -/
structure Message where
  role : Role
  content : String
deriving DecidableEq, Repr

/-- Constructor mirroring `Message::new`. -/
def Message.new (role : Role) (content : String) : Message :=
  { role := role, content := content }

/-- Errors of `send_message` and of the response stream,
`enum ChatbotError` in src/lib.rs. `NetworkError` wraps the transport
detail as a string. -/
inductive ChatbotError where
  | Timeout : ChatbotError
  | NetworkError : String → ChatbotError
  | UnexpectedResponse : ChatbotError
deriving DecidableEq, Repr

/-- Errors of provider construction, `enum ChatbotCreationError` in
src/lib.rs. -/
inductive ChatbotCreationError where
  | ApiKeyMissing : ChatbotCreationError
  | UnknownChatbot : ChatbotCreationError
  | UnknownModel : ChatbotCreationError
deriving DecidableEq, Repr

/-- The error of a failed model switch, `struct InvalidModelError` in
src/lib.rs. -/
inductive InvalidModelError where
  | mk : InvalidModelError
deriving DecidableEq, Repr

/-! ## Dummy provider (src/chatbots/dummy.rs) -/

/-- Catalog `AVAILABLE_MODELS` of src/chatbots/dummy.rs. -/
def DUMMY_AVAILABLE_MODELS : List String := ["1", "2"]

/-- `struct DummyChatbot { model: String }`. -/
structure DummyChatbot where
  model : String
deriving DecidableEq, Repr

/-- `DummyChatbot::create`: validates the model id against the catalog;
the api key argument is ignored. -/
def DummyChatbot.create (model : String) (_api_key : Option String) :
    Except ChatbotCreationError DummyChatbot :=
  if DUMMY_AVAILABLE_MODELS.contains model then
    Except.ok { model := model }
  else
    Except.error ChatbotCreationError.UnknownModel

/-- `DummyChatbot::name`. -/
def DummyChatbot.displayName (_c : DummyChatbot) : String := "Dummy"

/-- `DummyChatbot::model`: human-readable label of the current model id,
with a total fallback arm returning "Invalid Model". -/
def DummyChatbot.modelLabel (c : DummyChatbot) : String :=
  match c.model with
  | "1" => "Model 1"
  | "2" => "Model 2"
  | _ => "Invalid Model"

/-- `DummyChatbot::change_model`: validates against the catalog; mutation
of `self.model` becomes returning the updated record. The second component
is the provider state after the call. -/
def DummyChatbot.change_model (c : DummyChatbot) (new_model : String) :
    Except InvalidModelError Unit × DummyChatbot :=
  if DUMMY_AVAILABLE_MODELS.contains new_model then
    (Except.ok (), { model := new_model })
  else
    (Except.error InvalidModelError.mk, c)

/-- `DummyChatbot::send_message`: the response text is a function of the
last message of the conversation. -/
def DummyChatbot.send_message (_c : DummyChatbot) (messages : List Message) :
    Except ChatbotError String :=
  Except.ok (match messages.getLast? with
    | none => "Dummy response to empty conversation."
    | some last_msg =>
      if last_msg.role == Role.User then
        "Dummy response to: \"" ++ last_msg.content ++ "\"."
      else
        "Dummy response.")

/-! ## Gemini provider (src/chatbots/gemini.rs) -/

/-- `GEMINI_BASE_URL` of src/chatbots/gemini.rs. -/
def GEMINI_BASE_URL : String :=
  "https://generativelanguage.googleapis.com/v1beta/models/"

/-- Catalog `AVAILABLE_MODELS` of src/chatbots/gemini.rs. -/
def GEMINI_AVAILABLE_MODELS : List String :=
  ["gemini-2.0-flash-exp", "gemini-1.5-flash", "gemini-1.5-flash-8b",
   "gemini-1.5-pro", "gemini-1.0-pro"]

/-- The request URL precomputed by `create` and `change_model`:
`format!("{GEMINI_BASE_URL}{model}:streamGenerateContent?alt=sse&key={key}")`. -/
def geminiUrl (model api_key : String) : String :=
  GEMINI_BASE_URL ++ model ++ ":streamGenerateContent?alt=sse&key=" ++ api_key

/-- `struct GeminiChatbot { api_key, model, url, client }`; the `reqwest`
client holds no observable state and is dropped from the embedding. -/
structure GeminiChatbot where
  api_key : String
  model : String
  url : String
deriving DecidableEq, Repr

/-- `GeminiChatbot::create`: resolves the api key from the explicit
argument first, then from the `GEMINI_API_KEY` environment variable
(passed in as `env_key`); a missing key fails before the model id is
checked against the catalog, exactly as in the source. -/
def GeminiChatbot.create (model : String)
    (api_key env_key : Option String) :
    Except ChatbotCreationError GeminiChatbot :=
  match (match api_key with | some k => some k | none => env_key) with
  | none => Except.error ChatbotCreationError.ApiKeyMissing
  | some key =>
    if !GEMINI_AVAILABLE_MODELS.contains model then
      Except.error ChatbotCreationError.UnknownModel
    else
      Except.ok { api_key := key, model := model, url := geminiUrl model key }

/-- `GeminiChatbot::name`. -/
def GeminiChatbot.displayName (_c : GeminiChatbot) : String := "Gemini"

/-- The label table of `GeminiChatbot::model`, as a function of the model
id; `none` is the `unreachable!()` arm, i.e. a panic. -/
def geminiLabelTable (model : String) : Option String :=
  match model with
  | "gemini-2.0-flash-exp" => some "2.0 Flash (Experimental)"
  | "gemini-1.5-flash" => some "1.5 Flash"
  | "gemini-1.5-flash-8b" => some "1.5 Flash-8B"
  | "gemini-1.5-pro" => some "1.5 Pro"
  | "gemini-1.0-pro" => some "1.0 Pro (Deprecated)"
  | _ => none

/-- `GeminiChatbot::model`: human-readable label of the current model id;
`none` models the `unreachable!()` panic on an id outside the catalog. -/
def GeminiChatbot.modelLabel (c : GeminiChatbot) : Option String :=
  geminiLabelTable c.model

/-- `GeminiChatbot::change_model`: validates against the catalog; on
success updates both `model` and the precomputed `url`; on failure the
state is returned unchanged. -/
def GeminiChatbot.change_model (c : GeminiChatbot) (new_model : String) :
    Except InvalidModelError Unit × GeminiChatbot :=
  if !GEMINI_AVAILABLE_MODELS.contains new_model then
    (Except.error InvalidModelError.mk, c)
  else
    (Except.ok (),
     { c with model := new_model, url := geminiUrl new_model c.api_key })

/-! ## Gemini wire format (src/chatbots/gemini.rs, request building) -/

/-- `struct GeminiPart { text }`. -/
structure GeminiPart where
  text : String
deriving DecidableEq, Repr

/-- `struct GeminiMessage { role, parts }`. -/
structure GeminiMessage where
  role : Role
  parts : List GeminiPart
deriving DecidableEq, Repr

/-- `struct SystemInstruction { parts }`. -/
structure SystemInstruction where
  parts : List GeminiPart
deriving DecidableEq, Repr

/-- `struct GeminiRequest { system_instruction, contents }`. -/
structure GeminiRequest where
  system_instruction : Option SystemInstruction
  contents : List GeminiMessage
deriving DecidableEq, Repr

/-- `struct GeminiCandidate { content }`. -/
structure GeminiCandidate where
  content : GeminiMessage
deriving DecidableEq, Repr

/-- `struct GeminiResponse { candidates }`. -/
structure GeminiResponse where
  candidates : List GeminiCandidate
deriving DecidableEq, Repr

/-- Request body built by `GeminiChatbot::send_message` from the
transcript: the first System-role message (if any) becomes the
`system_instruction`; all non-System messages are mapped, in order, to
single-part wire messages. -/
def geminiRequestBody (messages : List Message) : GeminiRequest :=
  { system_instruction :=
      (messages.find? (fun msg => msg.role == Role.System)).map
        (fun system_prompt =>
          { parts := [{ text := system_prompt.content }] }),
    contents :=
      (messages.filter (fun msg => msg.role != Role.System)).map
        (fun msg => { role := msg.role, parts := [{ text := msg.content }] }) }

/-- Back-projection of a wire message to a transcript message: the role and
the concatenation of its part texts. Used to state that `contents`
preserves the transcript's roles and texts. -/
def geminiWireToMessage (gm : GeminiMessage) : Message :=
  { role := gm.role, content := String.join (gm.parts.map GeminiPart.text) }

/-! ## Gemini stream decoder (src/chatbots/gemini.rs, lines 182-223) -/

/-- A transport-level failure delivered by `reqwest`'s byte stream. -/
structure TransportError where
  isTimeout : Bool
  detail : String
deriving DecidableEq, Repr

/-- The classification applied to a failure of the initial `send` call
(before any stream item): `Timeout` if the transport reports a timeout,
otherwise `NetworkError`. -/
def classifySendError (e : TransportError) : ChatbotError :=
  if e.isTimeout then ChatbotError.Timeout
  else ChatbotError.NetworkError e.detail

/-- A raw chunk of bytes delivered by the transport. -/
abbrev Chunk := List Nat

/-- Extraction of the text of the first part of the first candidate, as in
the body of the stream closure: missing candidate or missing part yields
`UnexpectedResponse`. -/
def geminiExtractText (resp : GeminiResponse) : Except ChatbotError String :=
  match resp.candidates with
  | [] => Except.error ChatbotError.UnexpectedResponse
  | candidate :: _ =>
    match candidate.content.parts with
    | [] => Except.error ChatbotError.UnexpectedResponse
    | part :: _ => Except.ok part.text

/-- Per-item behaviour of the stream closure in `send_message`:
a transport error item is mapped to `Err(UnexpectedResponse)`; an ok chunk
has its first 5 bytes (the `data:` event marker) sliced off before the
payload parse. The slice `bytes[5..]` panics when the chunk is shorter
than 5 bytes, modelled by the outer `none`. The `serde_json` payload parse
is the explicit function argument `parse`; a failed parse yields
`Err(UnexpectedResponse)`. -/
def geminiDecodeItem (parse : Chunk → Option GeminiResponse)
    (item : Except TransportError Chunk) :
    Option (Except ChatbotError String) :=
  match item with
  | Except.error _ => some (Except.error ChatbotError.UnexpectedResponse)
  | Except.ok bytes =>
    if bytes.length < 5 then
      none
    else
      some (match parse (bytes.drop 5) with
        | none => Except.error ChatbotError.UnexpectedResponse
        | some resp => geminiExtractText resp)

/-- The decoded stream: `resp_stream.map(closure)` over the finite list of
transport items. -/
def geminiDecodeStream (parse : Chunk → Option GeminiResponse)
    (items : List (Except TransportError Chunk)) :
    List (Option (Except ChatbotError String)) :=
  items.map (geminiDecodeItem parse)

/-! ## Session persistence (src/session.rs), serde_json at JSON-tree level -/

/-- JSON syntax trees, the image of `serde_json` serialization in the
embedding. Only the forms produced or consumed by the session snapshot
format are needed. -/
inductive Json where
  | str : String → Json
  | arr : List Json → Json
  | obj : List (String × Json) → Json

/-- Serialization of `Role` (serde: lowercase names). -/
def Role.toJson : Role → Json
  | Role.System => Json.str "system"
  | Role.User => Json.str "user"
  | Role.Assistant => Json.str "assistant"

/-- Deserialization of `Role` (serde: lowercase names, alias "model" for
Assistant). -/
def Role.fromJson : Json → Option Role
  | Json.str "system" => some Role.System
  | Json.str "user" => some Role.User
  | Json.str "assistant" => some Role.Assistant
  | Json.str "model" => some Role.Assistant
  | _ => none

/-- Serialization of `Message` (serde derive: record of role and
content). -/
def Message.toJson (m : Message) : Json :=
  Json.obj [("role", m.role.toJson), ("content", Json.str m.content)]

/-- Deserialization of `Message`: looks the two fields up by name, as the
derived serde deserializer does. -/
def Message.fromJson (j : Json) : Option Message :=
  match j with
  | Json.obj fields =>
    match fields.lookup "role", fields.lookup "content" with
    | some r, some (Json.str c) =>
      (Role.fromJson r).map (fun role => { role := role, content := c })
    | _, _ => none
  | _ => none

/-- `struct Session { messages: Vec<Message> }`. -/
structure Session where
  messages : List Message
deriving DecidableEq, Repr

/-- `Session::new`. -/
def Session.new : Session := { messages := [] }

/-- Serialization of `Session` (serde derive: record holding the message
array in order). -/
def Session.toJson (s : Session) : Json :=
  Json.obj [("messages", Json.arr (s.messages.map Message.toJson))]

/-- Elementwise deserialization of the message array; `none` as soon as
one element fails, as serde does. -/
def decodeMessages : List Json → Option (List Message)
  | [] => some []
  | j :: rest =>
    match Message.fromJson j with
    | none => none
    | some m =>
      match decodeMessages rest with
      | none => none
      | some ms => some (m :: ms)

/-- Deserialization of `Session`. -/
def Session.fromJson (j : Json) : Option Session :=
  match j with
  | Json.obj fields =>
    match fields.lookup "messages" with
    | some (Json.arr xs) =>
      (decodeMessages xs).map (fun msgs => { messages := msgs })
    | _ => none
  | _ => none

/-- `enum SessionError` of src/session.rs (io payloads dropped). -/
inductive SessionError where
  | CreateDir : SessionError
  | DataDir : SessionError
  | Serialize : SessionError
  | WriteFile : SessionError
  | ReadFile : SessionError
  | ReadDir : SessionError
  | NotFound : SessionError
  | DeleteFile : SessionError
deriving DecidableEq, Repr

/-- The session directory as a store: file name to file content. A
prepended entry shadows older entries, modelling overwrite. -/
abbrev SessionStore := List (String × Json)

/-- Characters strictly before the last '.' of the list, `none` when the
list holds no '.'. -/
def charsBeforeLastDot : List Char → Option (List Char)
  | [] => none
  | c :: rest =>
    match charsBeforeLastDot rest with
    | some stem => some (c :: stem)
    | none => if c == '.' then some [] else none

/-- The file name computed by save, load and delete:
`session_dir.join(filename).with_extension("json")`. `with_extension`
replaces a final dot-extension when the stem before it is nonempty,
otherwise appends the new extension. -/
def withExtensionJson (filename : String) : String :=
  match charsBeforeLastDot filename.toList with
  | some stem =>
    if stem.isEmpty then filename ++ ".json"
    else String.mk stem ++ ".json"
  | none => filename ++ ".json"

/-- `Session::save`: serializes the session and writes it under the
computed file name (directory resolution and io are assumed to succeed,
their failures being environment conditions outside the store model). -/
def Session.save (s : Session) (filename : String) (store : SessionStore) :
    SessionStore :=
  (withExtensionJson filename, s.toJson) :: store

/-- `Session::load`: reads the file under the computed name
(`ReadFile` when missing) and deserializes it (`Serialize` on a malformed
file). -/
def Session.load (filename : String) (store : SessionStore) :
    Except SessionError Session :=
  match store.lookup (withExtensionJson filename) with
  | none => Except.error SessionError.ReadFile
  | some content =>
    match Session.fromJson content with
    | none => Except.error SessionError.Serialize
    | some s => Except.ok s

/-- `Session::delete`: `NotFound` when the file does not exist, otherwise
removes every entry under the name. -/
def Session.delete (filename : String) (store : SessionStore) :
    Except SessionError SessionStore :=
  if (store.lookup (withExtensionJson filename)).isSome then
    Except.ok (store.filter (fun e => e.1 != withExtensionJson filename))
  else
    Except.error SessionError.NotFound

/-- Repeatedly strips the ".json" suffix from a character list, as
`trim_end_matches(".json")` does; the fuel argument (instantiated with the
list length) bounds the recursion. -/
def trimEndMatchesJsonAux : Nat → List Char → List Char
  | 0, cs => cs
  | fuel + 1, cs =>
    if cs.reverse.take 5 == (".json".toList).reverse then
      trimEndMatchesJsonAux fuel (cs.take (cs.length - 5))
    else
      cs

/-- `file_name.trim_end_matches(".json")`. -/
def trimEndMatchesJson (n : String) : String :=
  String.mk (trimEndMatchesJsonAux n.toList.length n.toList)

/-- `Session::list_all`: the stored file names with the ".json" extension
stripped. -/
def Session.list_all (store : SessionStore) : List String :=
  (store.map Prod.fst).map trimEndMatchesJson

/-! ## The active provider as a closed variant (Box<dyn Chatbot> over the
two concrete providers linked into the binary) -/

/-- The dynamic provider owned by the Session Engine: one of the two
concrete implementations. -/
inductive ChatbotV where
  | gemini : GeminiChatbot → ChatbotV
  | dummy : DummyChatbot → ChatbotV
deriving DecidableEq, Repr

/-- Dispatch of `name()`. -/
def ChatbotV.displayName : ChatbotV → String
  | ChatbotV.gemini g => g.displayName
  | ChatbotV.dummy d => d.displayName

/-- Dispatch of `model()`; the Gemini variant can panic (`none`). -/
def ChatbotV.modelLabel : ChatbotV → Option String
  | ChatbotV.gemini g => g.modelLabel
  | ChatbotV.dummy d => some d.modelLabel

/-- Dispatch of `available_models()`. -/
def ChatbotV.available_models : ChatbotV → List String
  | ChatbotV.gemini _ => GEMINI_AVAILABLE_MODELS
  | ChatbotV.dummy _ => DUMMY_AVAILABLE_MODELS

/-- Dispatch of `change_model`. -/
def ChatbotV.change_model :
    ChatbotV → String → Except InvalidModelError Unit × ChatbotV
  | ChatbotV.gemini g, new_model =>
    let r := g.change_model new_model
    (r.1, ChatbotV.gemini r.2)
  | ChatbotV.dummy d, new_model =>
    let r := d.change_model new_model
    (r.1, ChatbotV.dummy r.2)

/-! ## Command handling (src/main.rs, handle_command) -/

/-- `enum CommandError` of src/main.rs. -/
inductive CommandError where
  | Print : CommandError
  | ChatbotSwitch : ChatbotCreationError → CommandError
  | Session : SessionError → CommandError
  | Quit : CommandError
deriving DecidableEq, Repr

/-- The environment consulted during command handling: the value of the
`GEMINI_API_KEY` environment variable, if set. -/
structure Env where
  geminiEnvKey : Option String

/-- Mutable state owned by `run_chat` and lent to `handle_command`: the
session, the active provider, and the session directory contents. -/
structure EngineState where
  session : Session
  chatbot : ChatbotV
  store : SessionStore

/-- Accumulator pass of `str::split_whitespace` over the characters of the
line: maximal runs of non-whitespace characters, in order. -/
def splitWsAux : List Char → List Char → List String
  | [], acc => if acc.isEmpty then [] else [String.mk acc.reverse]
  | c :: rest, acc =>
    if c.isWhitespace then
      (if acc.isEmpty then [] else [String.mk acc.reverse]) ++
        splitWsAux rest []
    else
      splitWsAux rest (c :: acc)

/-- `line.split_whitespace().collect()`. -/
def splitWhitespace (line : String) : List String :=
  splitWsAux line.toList []

/-- `input.trim().is_empty()`: every character of the line is
whitespace. -/
def isBlankLine (line : String) : Bool :=
  line.toList.all Char.isWhitespace

/-- `input.starts_with('/')`. -/
def startsWithSlash (line : String) : Bool :=
  match line.toList with
  | c :: _ => c == '/'
  | [] => false

/-- The `/system` mutation: retain the non-System messages, then insert
the new System message at index 0. -/
def applySystemCommand (messages : List Message) (new_msg : Message) :
    List Message :=
  (messages.filter (fun msg => msg.role != Role.System)).insertIdx 0 new_msg

/-- One invocation of `handle_command` on a line: the printed messages (in
order) and either the updated engine state or the `CommandError` that
`run_chat` receives. Branches follow src/main.rs lines 300-514; printing
itself is assumed not to fail. -/
def handleCommand (line : String) (st : EngineState) (env : Env) :
    List String × Except CommandError EngineState :=
  let parts := splitWhitespace line
  match parts.head? with
  | none => (["No command specified."], Except.ok st)
  | some command =>
    match command with
    | "/clear" | "/c" =>
      (["Context cleared."],
       Except.ok { st with session := { messages := [] } })
    | "/system" | "/sys" =>
      if parts.length > 1 then
        let new_msg :=
          Message.new Role.System (String.intercalate " " (parts.drop 1))
        (["System prompt set."],
         Except.ok { st with session :=
           { messages := applySystemCommand st.session.messages new_msg } })
      else
        (["System prompt is required. Usage: /system <prompt>"],
         Except.ok st)
    | "/chatbot" | "/cb" =>
      match parts[1]? with
      | some name =>
        match name with
        | "gemini" =>
          match GeminiChatbot.create "gemini-1.5-flash" none
              env.geminiEnvKey with
          | Except.error e => ([], Except.error (CommandError.ChatbotSwitch e))
          | Except.ok g =>
            let new_chatbot := ChatbotV.gemini g
            (["Chatbot changed to " ++ new_chatbot.displayName],
             Except.ok { st with chatbot := new_chatbot })
        | "dummy" =>
          match DummyChatbot.create "1" none with
          | Except.error e => ([], Except.error (CommandError.ChatbotSwitch e))
          | Except.ok d =>
            let new_chatbot := ChatbotV.dummy d
            (["Chatbot changed to " ++ new_chatbot.displayName],
             Except.ok { st with chatbot := new_chatbot })
        | _ => (["Invalid chatbot."], Except.ok st)
      | none =>
        (["Chatbot is required. Usage: /chatbot <chatbot>"], Except.ok st)
    | "/list_chatbots" | "/lc" =>
      (["Available chatbots:", "\tgemini - Google Gemini",
        "\tdummy - Dummy"], Except.ok st)
    | "/model" | "/m" =>
      match parts[1]? with
      | some new_model =>
        match st.chatbot.change_model new_model with
        | (Except.ok _, chatbot') =>
          (["Chatbot model changed to " ++
              (chatbot'.modelLabel.getD "unreachable")],
           Except.ok { st with chatbot := chatbot' })
        | (Except.error _, _) =>
          (["Invalid model."], Except.ok st)
      | none =>
        (["Model is required. Usage: /model <model>"], Except.ok st)
    | "/list_models" | "/lm" =>
      ("Available models:" ::
        st.chatbot.available_models.map (fun model => "\t" ++ model),
       Except.ok st)
    | "/info" | "/i" =>
      (["Current chatbot: " ++ st.chatbot.displayName,
        "Current model: " ++ (st.chatbot.modelLabel.getD "unreachable")] ++
        (match st.session.messages.find?
            (fun msg => msg.role == Role.System) with
         | some system_msg => ["System prompt: " ++ system_msg.content]
         | none => []),
       Except.ok st)
    | "/help" | "/h" =>
      (["Available commands:"], Except.ok st)
    | "/save" | "/s" =>
      match parts[1]? with
      | some filename =>
        (["Session saved to " ++ filename ++ ".json"],
         Except.ok { st with store := st.session.save filename st.store })
      | none =>
        (["Filename is required. Usage: /save <filename>"], Except.ok st)
    | "/load" | "/l" =>
      match parts[1]? with
      | some filename =>
        match Session.load filename st.store with
        | Except.error e => ([], Except.error (CommandError.Session e))
        | Except.ok loaded_session =>
          (["Session loaded from " ++ filename ++ ".json"],
           Except.ok { st with session := loaded_session })
      | none =>
        (["Filename is required. Usage: /load <filename>"], Except.ok st)
    | "/sessions" | "/se" =>
      let sessions := Session.list_all st.store
      (if sessions.isEmpty then
        ["No saved sessions found."]
       else
        "Saved sessions:" :: sessions.map (fun elem => "\t" ++ elem),
       Except.ok st)
    | "/delete" | "/d" =>
      match parts[1]? with
      | some filename =>
        match Session.delete filename st.store with
        | Except.error e => ([], Except.error (CommandError.Session e))
        | Except.ok store' =>
          (["Session " ++ filename ++ ".json deleted."],
           Except.ok { st with store := store' })
      | none =>
        (["Filename is required. Usage: /delete <filename>"], Except.ok st)
    | "/quit" | "/q" =>
      (["Quitting..."], Except.error CommandError.Quit)
    | _ =>
      (["Invalid command. Use /help or /h for a list of commands."],
       Except.ok st)

/-! ## The chat turn and the REPL loop (src/main.rs, run_chat and
handle_chat_message) -/

/-- One yielded item of a response stream. -/
abbrev StreamItem := Except ChatbotError String

/-- A provider's `send_message` as seen by the engine: from the full
transcript to either a `ChatbotError` raised at connection time or the
finite stream of items. -/
abbrev SendMessage := List Message → Except ChatbotError (List StreamItem)

/-- The drain loop inside `handle_chat_message`: each ok item is printed
and appended to the accumulator; the first error item is returned as the
error of the whole call. -/
def accumStream : List StreamItem → String → Except ChatbotError String
  | [], full_resp => Except.ok full_resp
  | item :: rest, full_resp =>
    match item with
    | Except.ok text => accumStream rest (full_resp ++ text)
    | Except.error err => Except.error err

/-- `handle_chat_message`: calls `send_message` on the history, drains the
stream, and returns the accumulated text as a new Assistant `Message`. -/
def handle_chat_message (send : SendMessage) (hist : List Message) :
    Except ChatbotError Message :=
  match send hist with
  | Except.error err => Except.error err
  | Except.ok stream =>
    match accumStream stream "" with
    | Except.error err => Except.error err
    | Except.ok full_resp => Except.ok (Message.new Role.Assistant full_resp)

/-- The chat path of one loop iteration of `run_chat` (lines 273-280): the
input becomes a User message pushed onto the transcript, and
`handle_chat_message` is invoked; its returned Assistant message is
discarded by the caller, so on success the transcript holds only the new
User message. -/
def runChatTurn (send : SendMessage) (messages : List Message)
    (input : String) : Except ChatbotError (List Message) :=
  let messages' := messages ++ [Message.new Role.User input]
  match handle_chat_message send messages' with
  | Except.error err => Except.error err
  | Except.ok _assistant_message => Except.ok messages'

/-- How one run of the `run_chat` loop ends. `okBreak` is the
`break Ok(())` taken after a chat turn when stdin is not a terminal;
`eofErr` is the `ReadlineError` returned when the input source is
exhausted; the other two are the `return Err` paths for command errors
and for chat-turn errors. -/
inductive LoopOutcome where
  | okBreak : LoopOutcome
  | eofErr : LoopOutcome
  | cmdErr : CommandError → LoopOutcome
  | chatErr : ChatbotError → LoopOutcome
deriving DecidableEq, Repr

/-- The `run_chat` loop (lines 216-285) over a finite list of input lines,
returning how the loop ends and how many lines it read. Blank lines are
skipped; lines starting with '/' go to `handle_command`, whose error ends
the loop via `return Err`; other lines run a chat turn, whose error also
ends the loop; after a successful chat turn the loop breaks normally when
stdin is not a terminal. -/
def runChatLoop (send : SendMessage) (isTerminal : Bool) (env : Env) :
    List String → EngineState → LoopOutcome × Nat
  | [], _ => (LoopOutcome.eofErr, 0)
  | line :: rest, st =>
    if isBlankLine line then
      let r := runChatLoop send isTerminal env rest st
      (r.1, r.2 + 1)
    else if startsWithSlash line then
      match (handleCommand line st env).2 with
      | Except.error err => (LoopOutcome.cmdErr err, 1)
      | Except.ok st' =>
        let r := runChatLoop send isTerminal env rest st'
        (r.1, r.2 + 1)
    else
      match runChatTurn send st.session.messages line with
      | Except.error err => (LoopOutcome.chatErr err, 1)
      | Except.ok messages' =>
        if !isTerminal then
          (LoopOutcome.okBreak, 1)
        else
          let r := runChatLoop send isTerminal env rest
            { st with session := { messages := messages' } }
          (r.1, r.2 + 1)

/-- The process exit code that `main` produces from the outcome of
`run_chat`: 0 when `run_chat` returns Ok, otherwise the error is printed
and the process exits with code 1. -/
def processExitCode (outcome : LoopOutcome) : Nat :=
  match outcome with
  | LoopOutcome.okBreak => 0
  | _ => 1

/-! ## Reachability and concrete sample inputs -/

/-- Reachable states of the Gemini provider: those produced by a
successful `create`, closed under `change_model` (successful or not). -/
inductive GeminiReachable : GeminiChatbot → Prop where
  | created : ∀ model api_key env_key c,
      GeminiChatbot.create model api_key env_key = Except.ok c →
      GeminiReachable c
  | switched : ∀ c new_model,
      GeminiReachable c →
      GeminiReachable ((c.change_model new_model).2)

/-- A sample Gemini provider state, as produced by
`create("gemini-1.5-pro", Some("k"))`. -/
def gSample : GeminiChatbot :=
  { api_key := "k", model := "gemini-1.5-pro",
    url := geminiUrl "gemini-1.5-pro" "k" }

/-- A payload parser (standing for `serde_json`) that rejects every
payload. -/
def parseAlwaysFail : Chunk → Option GeminiResponse := fun _ => none

/-- A payload parser (standing for `serde_json`) that reads every payload
as a single-candidate response whose first part is "hi". -/
def parseAlwaysHi : Chunk → Option GeminiResponse := fun _ =>
  some { candidates :=
    [{ content := { role := Role.Assistant,
                    parts := [{ text := "hi" }] } }] }

/-- A sample mid-stream transport failure. -/
def netErrSample : TransportError :=
  { isTimeout := false, detail := "connection reset by peer" }

/-- A sample well-formed chunk: the bytes of "data: {}". -/
def chunkSample : Chunk := [100, 97, 116, 97, 58, 32, 123, 125]

/-- The Dummy provider's `send_message` as a one-increment stream — the
spec's example behaviour (provider `dummy`, model "1"): the single yielded
increment carries the whole response text. -/
def dummySendStream : SendMessage := fun messages =>
  (DummyChatbot.send_message { model := "1" } messages).map
    (fun text => [Except.ok text])

/-- A `send_message` that fails with `Timeout` at connection time. -/
def sendErrTimeout : SendMessage := fun _ => Except.error ChatbotError.Timeout

/-- The initial engine state of a session started on the Dummy provider
with an empty session directory. -/
def st0 : EngineState :=
  { session := Session.new, chatbot := ChatbotV.dummy { model := "1" },
    store := [] }

/-- An environment with no `GEMINI_API_KEY` set. -/
def env0 : Env := { geminiEnvKey := none }

/-! ## Helper lemmas -/

theorem applySystemCommand_eq_cons (msgs : List Message) (m : Message) :
    applySystemCommand msgs m
      = m :: msgs.filter (fun x => x.role != Role.System) := by
  simp [applySystemCommand, List.insertIdx]

theorem countP_system_filter (msgs : List Message) :
    (msgs.filter (fun x => x.role != Role.System)).countP
      (fun x => x.role == Role.System) = 0 := by
  rw [List.countP_eq_zero]
  intro a ha
  have h := (List.mem_filter.mp ha).2
  simpa using h

theorem applySystemCommand_countP (msgs : List Message) (p : String) :
    (applySystemCommand msgs (Message.new Role.System p)).countP
      (fun x => x.role == Role.System) = 1 := by
  rw [applySystemCommand_eq_cons, List.countP_cons, countP_system_filter]
  simp [Message.new]

theorem applySystemCommand_filter (msgs : List Message) (p : String) :
    (applySystemCommand msgs (Message.new Role.System p)).filter
        (fun x => x.role != Role.System)
      = msgs.filter (fun x => x.role != Role.System) := by
  rw [applySystemCommand_eq_cons]
  rw [List.filter_cons]
  simp [Message.new, List.filter_filter]

theorem mem_of_contains_true {l : List String} {a : String}
    (h : l.contains a = true) : a ∈ l := by
  simpa [List.contains, List.elem_eq_mem] using h

theorem contains_eq_false_of_not_mem {l : List String} {a : String}
    (h : a ∉ l) : l.contains a = false := by
  simpa [List.contains, List.elem_eq_mem] using h

theorem contains_eq_true_of_mem {l : List String} {a : String}
    (h : a ∈ l) : l.contains a = true := by
  simpa [List.contains, List.elem_eq_mem] using h

theorem geminiLabelTable_isSome_of_mem {m : String}
    (h : m ∈ GEMINI_AVAILABLE_MODELS) : (geminiLabelTable m).isSome = true := by
  simp only [GEMINI_AVAILABLE_MODELS, List.mem_cons, List.mem_singleton,
    List.not_mem_nil, or_false] at h
  rcases h with h | h | h | h | h <;> subst h <;> decide

/-! ## Claim theorems -/

/-- C5: executing the system command with prompt text `p` yields a
transcript whose head is the System message with content `p`, with exactly
one System-role message, and with all non-System messages preserved
unchanged and in order; setting a System message twice leaves exactly one
System message holding the latest content. -/
theorem c5_system_command (messages : List Message) (p q : String) :
    (applySystemCommand messages (Message.new Role.System p)).head?
        = some (Message.new Role.System p)
  ∧ (applySystemCommand messages (Message.new Role.System p)).countP
        (fun x => x.role == Role.System) = 1
  ∧ (applySystemCommand messages (Message.new Role.System p)).filter
        (fun x => x.role != Role.System)
      = messages.filter (fun x => x.role != Role.System)
  ∧ (applySystemCommand
        (applySystemCommand messages (Message.new Role.System p))
        (Message.new Role.System q)).countP
        (fun x => x.role == Role.System) = 1
  ∧ (applySystemCommand
        (applySystemCommand messages (Message.new Role.System p))
        (Message.new Role.System q)).head?
      = some (Message.new Role.System q) := by
  refine ⟨?_, applySystemCommand_countP messages p,
    applySystemCommand_filter messages p,
    applySystemCommand_countP _ q, ?_⟩
  · rw [applySystemCommand_eq_cons]; rfl
  · rw [applySystemCommand_eq_cons]; rfl

/-- C4: for both provider variants, `change_model` with an id outside the
static catalog fails with `InvalidModelError` and leaves every field of
the provider unchanged; with an id inside the catalog it succeeds, the
stored current model id becomes the new id, the api key is preserved, and
the model label reflects the new id (for Gemini it is the catalog label,
in particular not the panic arm). -/
theorem c4_change_model_atomic (g : GeminiChatbot) (d : DummyChatbot)
    (id : String) :
    (id ∉ GEMINI_AVAILABLE_MODELS →
        g.change_model id = (Except.error InvalidModelError.mk, g))
  ∧ (id ∈ GEMINI_AVAILABLE_MODELS →
        (g.change_model id).1 = Except.ok ()
      ∧ ((g.change_model id).2).model = id
      ∧ ((g.change_model id).2).api_key = g.api_key
      ∧ ((g.change_model id).2).url = geminiUrl id g.api_key
      ∧ ((g.change_model id).2).modelLabel = geminiLabelTable id
      ∧ (((g.change_model id).2).modelLabel).isSome = true)
  ∧ (id ∉ DUMMY_AVAILABLE_MODELS →
        d.change_model id = (Except.error InvalidModelError.mk, d))
  ∧ (id ∈ DUMMY_AVAILABLE_MODELS →
        (d.change_model id).1 = Except.ok ()
      ∧ ((d.change_model id).2).model = id
      ∧ ((d.change_model id).2).modelLabel
          = DummyChatbot.modelLabel { model := id }) := by
  refine ⟨?_, ?_, ?_, ?_⟩
  · intro h
    simp [GeminiChatbot.change_model, h]
  · intro h
    simp [GeminiChatbot.change_model, h, GeminiChatbot.modelLabel,
      geminiLabelTable_isSome_of_mem h]
  · intro h
    simp [DummyChatbot.change_model, h]
  · intro h
    simp [DummyChatbot.change_model, h]

/-- Closed instance of C4: switching the Gemini provider to an id outside
the catalog fails and preserves the state, and switching the Dummy
provider to the catalog id "2" succeeds with the matching label. -/
theorem c4_change_model_atomic_witness :
    gSample.change_model "not-a-real-model"
      = (Except.error InvalidModelError.mk, gSample)
  ∧ (({ model := "1" } : DummyChatbot).change_model "2").1 = Except.ok ()
  ∧ ((({ model := "1" } : DummyChatbot).change_model "2").2).model = "2" := by
  refine ⟨(c4_change_model_atomic gSample { model := "1" }
      "not-a-real-model").1 (by decide), ?_, ?_⟩
  · exact ((c4_change_model_atomic gSample { model := "1" } "2").2.2.2
      (by decide)).1
  · exact ((c4_change_model_atomic gSample { model := "1" } "2").2.2.2
      (by decide)).2.1

theorem geminiCreate_model_mem {model : String} {ak ek : Option String}
    {c : GeminiChatbot}
    (h : GeminiChatbot.create model ak ek = Except.ok c) :
    c.model ∈ GEMINI_AVAILABLE_MODELS := by
  unfold GeminiChatbot.create at h
  rcases hm : (match ak with | some k => some k | none => ek) with _ | key
  · rw [hm] at h; exact absurd h (by simp)
  · rw [hm] at h
    by_cases hc : GEMINI_AVAILABLE_MODELS.contains model
    · rw [hc] at h
      simp only [Bool.not_true, Bool.false_eq_true, if_false] at h
      cases h
      exact mem_of_contains_true hc
    · rw [Bool.not_eq_true] at hc
      rw [hc] at h
      simp at h

theorem geminiChangeModel_model_mem {c : GeminiChatbot} (new_model : String)
    (h : c.model ∈ GEMINI_AVAILABLE_MODELS) :
    ((c.change_model new_model).2).model ∈ GEMINI_AVAILABLE_MODELS := by
  unfold GeminiChatbot.change_model
  by_cases hc : GEMINI_AVAILABLE_MODELS.contains new_model
  · simp only [hc, Bool.not_true, Bool.false_eq_true, if_false]
    exact mem_of_contains_true hc
  · rw [Bool.not_eq_true] at hc
    simp only [hc, Bool.not_false, if_true]
    exact h

/-- C9: every Gemini provider state reachable through `create` and any
sequence of `change_model` calls keeps its model id inside the static
catalog, so `model()` never takes its `unreachable!()` arm: the label is
always defined. -/
theorem c9_gemini_model_invariant (c : GeminiChatbot)
    (h : GeminiReachable c) :
    c.model ∈ GEMINI_AVAILABLE_MODELS ∧ (c.modelLabel).isSome = true := by
  have hmem : c.model ∈ GEMINI_AVAILABLE_MODELS := by
    induction h with
    | created model api_key env_key c hc => exact geminiCreate_model_mem hc
    | switched c new_model _ ih => exact geminiChangeModel_model_mem _ ih
  exact ⟨hmem, geminiLabelTable_isSome_of_mem hmem⟩

theorem roleFromJson_toJson (r : Role) : Role.fromJson r.toJson = some r := by
  cases r <;> rfl

theorem messageFromJson_toJson (m : Message) :
    Message.fromJson m.toJson = some m := by
  show Message.fromJson (Json.obj
    [("role", m.role.toJson), ("content", Json.str m.content)]) = some m
  simp [Message.fromJson, List.lookup, roleFromJson_toJson]

theorem decodeMessages_map_toJson (msgs : List Message) :
    decodeMessages (msgs.map Message.toJson) = some msgs := by
  induction msgs with
  | nil => rfl
  | cons m rest ih =>
    simp [decodeMessages, messageFromJson_toJson, ih]

theorem sessionFromJson_toJson (s : Session) :
    Session.fromJson s.toJson = some s := by
  show Session.fromJson (Json.obj
    [("messages", Json.arr (s.messages.map Message.toJson))]) = some s
  simp [Session.fromJson, List.lookup, decodeMessages_map_toJson]

/-- C6: for every session and every filename, `save` followed by `load`
under the same name returns a session whose message sequence is identical
to the original, whatever the prior contents of the session directory. -/
theorem c6_save_load_roundtrip (s : Session) (filename : String)
    (store : SessionStore) :
    Session.load filename (s.save filename store) = Except.ok s := by
  unfold Session.load Session.save
  simp [List.lookup, sessionFromJson_toJson]

theorem geminiWire_map_roundtrip (l : List Message) :
    (l.map (fun msg => GeminiMessage.mk msg.role [GeminiPart.mk msg.content])).map
        geminiWireToMessage = l := by
  induction l with
  | nil => rfl
  | cons m rest ih =>
    simp only [List.map_cons, ih, List.cons.injEq, and_true]
    simp [geminiWireToMessage, String.join, String.empty_append]

/-- C7: the request body built by the Gemini provider's `send_message`
carries the content of the first System-role message of the transcript as
its `system_instruction` when one is present, carries no
`system_instruction` otherwise, and its `contents` array is exactly the
non-System messages of the transcript, in order, with role and text
preserved (witnessed by the back-projection `geminiWireToMessage`). -/
theorem c7_request_translation (messages : List Message) :
    ((geminiRequestBody messages).contents.map geminiWireToMessage
        = messages.filter (fun msg => msg.role != Role.System))
  ∧ (∀ m, messages.find? (fun msg => msg.role == Role.System) = some m →
        (geminiRequestBody messages).system_instruction
          = some { parts := [{ text := m.content }] })
  ∧ (messages.find? (fun msg => msg.role == Role.System) = none →
        (geminiRequestBody messages).system_instruction = none)
  ∧ ((geminiRequestBody messages).system_instruction.isSome = true
        ↔ ∃ m ∈ messages, m.role = Role.System) := by
  refine ⟨?_, ?_, ?_, ?_⟩
  · exact geminiWire_map_roundtrip
      (messages.filter (fun msg => msg.role != Role.System))
  · intro m hm
    simp [geminiRequestBody, hm]
  · intro hm
    simp [geminiRequestBody, hm]
  · simp [geminiRequestBody, List.find?_isSome]

/-- Closed instance of C7: on the transcript
`[System "be terse", User "hi"]` the system instruction is the System
content, and on `[User "hi"]` it is absent. -/
theorem c7_request_translation_witness :
    (geminiRequestBody
        [Message.new Role.System "be terse", Message.new Role.User "hi"]).system_instruction
      = some { parts := [{ text := "be terse" }] }
  ∧ (geminiRequestBody [Message.new Role.User "hi"]).system_instruction
      = none :=
  ⟨(c7_request_translation
      [Message.new Role.System "be terse", Message.new Role.User "hi"]).2.1
      (Message.new Role.System "be terse") (by decide),
   (c7_request_translation [Message.new Role.User "hi"]).2.2.1 (by decide)⟩

/-- C3 fails on the code at a concrete input: a mid-stream transport error
is yielded as an `UnexpectedResponse` increment — not a Timeout or
NetworkError — and it is not the final and only remaining item: the
subsequent frame is still decoded, so the two-item input stream decodes to
two items. -/
theorem c3_counterexample :
    geminiDecodeStream parseAlwaysHi
        [Except.error netErrSample, Except.ok chunkSample]
      = [some (Except.error ChatbotError.UnexpectedResponse),
         some (Except.ok "hi")]
  ∧ (geminiDecodeStream parseAlwaysHi
        [Except.error netErrSample, Except.ok chunkSample]).length = 2 :=
  ⟨rfl, rfl⟩

/-- C3 amended: a framed event of at least 5 bytes whose payload fails to
parse after the prefix strip yields `UnexpectedResponse`; decoding is
local, so the stream continues with the frames around any item; and a
mid-stream transport error is likewise yielded as `UnexpectedResponse`
(not as a Timeout or NetworkError) without ending the stream. -/
theorem c3_stream_decoder_amended (parse : Chunk → Option GeminiResponse)
    (pre post : List (Except TransportError Chunk))
    (item : Except TransportError Chunk) (e : TransportError)
    (bytes : Chunk) :
    (geminiDecodeStream parse (pre ++ item :: post)
        = geminiDecodeStream parse pre
          ++ geminiDecodeItem parse item :: geminiDecodeStream parse post)
  ∧ (geminiDecodeItem parse (Except.error e)
        = some (Except.error ChatbotError.UnexpectedResponse))
  ∧ (5 ≤ bytes.length → parse (bytes.drop 5) = none →
        geminiDecodeItem parse (Except.ok bytes)
          = some (Except.error ChatbotError.UnexpectedResponse)) := by
  refine ⟨?_, rfl, ?_⟩
  · simp [geminiDecodeStream]
  · intro h5 hp
    have hlt : ¬ (bytes.length < 5) := Nat.not_lt.mpr h5
    simp [geminiDecodeItem, hlt, hp]

/-- Closed instance of the amended C3: a parse failure on a well-formed
8-byte chunk yields `UnexpectedResponse`. -/
theorem c3_stream_decoder_amended_witness :
    geminiDecodeItem parseAlwaysFail (Except.ok chunkSample)
      = some (Except.error ChatbotError.UnexpectedResponse) :=
  (c3_stream_decoder_amended parseAlwaysFail [] [] (Except.ok chunkSample)
    netErrSample chunkSample).2.2 (by decide) (by decide)

/-- C10 fails on the code at a concrete input: an empty chunk delivered by
the transport makes the slice `bytes[5..]` panic (the `none` of the
embedding), so per-chunk processing is not total. -/
theorem c10_counterexample :
    geminiDecodeItem parseAlwaysFail (Except.ok []) = none := rfl

/-- C10 amended: per-chunk processing is total — yielding either a text
increment or a `ChatbotError` value — for every transport-error item and
for every ok chunk of at least 5 bytes; a shorter ok chunk panics in the
prefix slice. -/
theorem c10_chunk_totality_amended (parse : Chunk → Option GeminiResponse)
    (bytes : Chunk) (e : TransportError) :
    (5 ≤ bytes.length →
        (geminiDecodeItem parse (Except.ok bytes)).isSome = true)
  ∧ (geminiDecodeItem parse (Except.error e)).isSome = true := by
  refine ⟨fun h5 => ?_, rfl⟩
  have hlt : ¬ (bytes.length < 5) := Nat.not_lt.mpr h5
  simp [geminiDecodeItem, hlt]

/-- Closed instance of the amended C10: an 8-byte chunk is processed
without panic. -/
theorem c10_chunk_totality_amended_witness :
    (geminiDecodeItem parseAlwaysHi (Except.ok chunkSample)).isSome = true :=
  (c10_chunk_totality_amended parseAlwaysHi chunkSample netErrSample).1
    (by decide)

/-- Closed instance of C9: a freshly created provider, after one model
switch, still has a defined label. -/
theorem c9_gemini_model_invariant_witness :
    ((gSample.change_model "gemini-1.0-pro").2).modelLabel.isSome = true :=
  (c9_gemini_model_invariant _
    (GeminiReachable.switched _ "gemini-1.0-pro"
      (GeminiReachable.created "gemini-1.5-pro" (some "k") none _
        (by decide)))).2

/-- C1 fails on the code: evaluated on the spec's own example (Dummy
provider, model "1", empty transcript, user input "hello", a stream of
exactly one increment), `handle_chat_message` does build the Assistant
message "Dummy response to: \"hello\"." from the accumulated text, but
the chat path of `run_chat` discards it, so the successful turn leaves
the transcript holding only the new User message — it grows by one
message, not two, and no Assistant message is ever appended. -/
theorem c1_assistant_message_discarded :
    handle_chat_message dummySendStream [Message.new Role.User "hello"]
      = Except.ok
          (Message.new Role.Assistant "Dummy response to: \"hello\".")
  ∧ runChatTurn dummySendStream [] "hello"
      = Except.ok [Message.new Role.User "hello"] := by
  exact ⟨by decide, by decide⟩

/-- C2 fails on the code at a concrete input: the recoverable persistence
error of `/delete nosuch` on an empty session directory (`NotFound`, which
the spec itself lists as recoverable) is returned out of the REPL loop
after one line, and `main` turns it into process exit code 1 — it unwinds
past the Session Engine and terminates the process. -/
theorem c2_counterexample :
    runChatLoop sendErrTimeout true env0 ["/delete nosuch", "next"] st0
      = (LoopOutcome.cmdErr (CommandError.Session SessionError.NotFound), 1)
  ∧ processExitCode
        (LoopOutcome.cmdErr (CommandError.Session SessionError.NotFound))
      = 1 := by
  exact ⟨by decide, rfl⟩

/-- C2 amended: errors that `handle_command` reports itself (an invalid
model id, an unrecognized command) are converted to a user-visible message
and the loop continues with the state unchanged; but a `ChatbotError`
raised by `send_message` or by the stream, and any `CommandError` returned
by `handle_command` (failed chatbot construction, persistence failures,
quit), end the REPL loop after the current line and terminate the process
with exit code 1. -/
theorem c2_error_propagation_amended (st : EngineState) (env : Env)
    (send : SendMessage) (rest : List String) (line : String)
    (e : ChatbotError) (ce : CommandError) :
    ((handleCommand "/model bogus" st env).1 = ["Invalid model."]
      ∧ (handleCommand "/model bogus" st env).2 = Except.ok st)
  ∧ ((handleCommand "/nosuchcommand" st env).1
        = ["Invalid command. Use /help or /h for a list of commands."]
      ∧ (handleCommand "/nosuchcommand" st env).2 = Except.ok st)
  ∧ (isBlankLine line = false → startsWithSlash line = false →
      runChatTurn send st.session.messages line = Except.error e →
      runChatLoop send true env (line :: rest) st
          = (LoopOutcome.chatErr e, 1)
        ∧ processExitCode (LoopOutcome.chatErr e) = 1)
  ∧ (isBlankLine line = false → startsWithSlash line = true →
      (handleCommand line st env).2 = Except.error ce →
      runChatLoop send true env (line :: rest) st
          = (LoopOutcome.cmdErr ce, 1)
        ∧ processExitCode (LoopOutcome.cmdErr ce) = 1) := by
  refine ⟨?_, ?_, ?_, ?_⟩
  · rcases st with ⟨s1, cb, s3⟩
    cases cb <;> exact ⟨rfl, rfl⟩
  · exact ⟨rfl, rfl⟩
  · intro h1 h2 h3
    refine ⟨?_, rfl⟩
    simp [runChatLoop, h1, h2, h3]
  · intro h1 h2 h3
    refine ⟨?_, rfl⟩
    simp [runChatLoop, h1, h2, h3]

/-- Closed instance of the amended C2: a connection-time `Timeout` on a
chat line ends the loop with that error, and `/quit` ends it with the
`Quit` command error. -/
theorem c2_error_propagation_amended_witness :
    runChatLoop sendErrTimeout true env0 ["hello"] st0
      = (LoopOutcome.chatErr ChatbotError.Timeout, 1)
  ∧ runChatLoop sendErrTimeout true env0 ["/quit"] st0
      = (LoopOutcome.cmdErr CommandError.Quit, 1) :=
  ⟨((c2_error_propagation_amended st0 env0 sendErrTimeout [] "hello"
      ChatbotError.Timeout CommandError.Quit).2.2.1 (by decide) (by decide)
      (by decide)).1,
   ((c2_error_propagation_amended st0 env0 sendErrTimeout [] "/quit"
      ChatbotError.Timeout CommandError.Quit).2.2.2 (by decide) (by decide)
      rfl).1⟩

/-- C8 fails on the code at a concrete input: with stdin not a terminal,
a command line does not terminate the loop — on input lines
`["/help", "hi"]` the loop reads two lines before terminating normally,
and likewise a blank first line is skipped, so the loop does not process
exactly one line regardless of the kind of line. -/
theorem c8_counterexample :
    runChatLoop dummySendStream false env0 ["/help", "hi"] st0
      = (LoopOutcome.okBreak, 2)
  ∧ runChatLoop dummySendStream false env0 [" ", "hi"] st0
      = (LoopOutcome.okBreak, 2) := by
  exact ⟨by decide, by decide⟩

/-- C8 amended: when stdin is not a terminal, the loop terminates normally
immediately after the first conversational chat line whose turn completes
successfully — having read exactly that one line if it comes first; blank
lines and successfully handled command lines do not terminate the loop,
which continues with the remaining input. -/
theorem c8_noninteractive_amended (send : SendMessage) (env : Env)
    (st st' : EngineState) (rest : List String) (line : String)
    (msgs' : List Message) :
    (isBlankLine line = false → startsWithSlash line = false →
        runChatTurn send st.session.messages line = Except.ok msgs' →
        runChatLoop send false env (line :: rest) st
          = (LoopOutcome.okBreak, 1))
  ∧ (isBlankLine line = true →
        runChatLoop send false env (line :: rest) st
          = ((runChatLoop send false env rest st).1,
             (runChatLoop send false env rest st).2 + 1))
  ∧ (isBlankLine line = false → startsWithSlash line = true →
        (handleCommand line st env).2 = Except.ok st' →
        runChatLoop send false env (line :: rest) st
          = ((runChatLoop send false env rest st').1,
             (runChatLoop send false env rest st').2 + 1)) := by
  refine ⟨?_, ?_, ?_⟩
  · intro h1 h2 h3
    simp [runChatLoop, h1, h2, h3]
  · intro h1
    simp [runChatLoop, h1]
  · intro h1 h2 h3
    simp [runChatLoop, h1, h2, h3]

/-- Closed instance of the amended C8: in non-interactive mode a first
chat line ends the loop at once; a blank line and a `/help` line hand over
to the rest of the input. -/
theorem c8_noninteractive_amended_witness :
    runChatLoop dummySendStream false env0 ["hi"] st0
      = (LoopOutcome.okBreak, 1)
  ∧ runChatLoop dummySendStream false env0 [" ", "hi"] st0
      = ((runChatLoop dummySendStream false env0 ["hi"] st0).1,
         (runChatLoop dummySendStream false env0 ["hi"] st0).2 + 1)
  ∧ runChatLoop dummySendStream false env0 ["/help", "hi"] st0
      = ((runChatLoop dummySendStream false env0 ["hi"] st0).1,
         (runChatLoop dummySendStream false env0 ["hi"] st0).2 + 1) :=
  ⟨(c8_noninteractive_amended dummySendStream env0 st0 st0 []
      "hi" [Message.new Role.User "hi"]).1 (by decide) (by decide)
      (by decide),
   (c8_noninteractive_amended dummySendStream env0 st0 st0 ["hi"]
      " " []).2.1 (by decide),
   (c8_noninteractive_amended dummySendStream env0 st0 st0 ["hi"]
      "/help" []).2.2 (by decide) (by decide) rfl⟩
